import Mathlib

/-!
Shallow embedding of the movie-catalog CRUD service
(src/src/routes/movies.py and src/src/schemas/movies.py).

Conventions of the embedding:
* calendar dates are day numbers (`Int`); `today` is passed explicitly where
  the code calls `datetime.date.today()`;
* the numeric fields `score`, `budget`, `revenue` are rationals (`ℚ`): the
  validators only compare them against integer bounds, and `condecimal`
  constraints are exactness conditions on the decimal representation;
* the JSON request body, as Pydantic sees it, is a `RawPayload` whose fields
  are `Option`s recording presence; unknown JSON keys (`extraFields`) are
  ignored, which is Pydantic's default behaviour;
* an HTTP response is `ApiResponse`: a success with status and body, an
  `HTTPException` with status and detail, a 422 request-validation error, or
  an unhandled exception escaping the handler (`serverError`);
* stateful handlers take the database state and return the new state with
  the response.
-/

namespace MoviesApi

/-- The movie status enumeration (`MovieStatusEnum` in src/src/schemas/movies.py). -/
inductive MovieStatusEnum where
  | released
  | postProduction
  | inProduction
deriving DecidableEq, Repr

/-- Pydantic coercion of a raw string into `MovieStatusEnum` (a `str` Enum is
matched by value). -/
def parseStatus (s : String) : Option MovieStatusEnum :=
  if s = "Released" then some .released
  else if s = "Post Production" then some .postProduction
  else if s = "In Production" then some .inProduction
  else none

/-- The JSON body of a create/update request as Pydantic receives it: an outer
`Option` records whether the key is present; for the nullable fields an inner
`Option` records a JSON null.  `extraFields` are keys not declared on
`MovieCreateUpdateSchema`; Pydantic's default config ignores them. -/
structure RawPayload where
  name : Option String
  date : Option Int
  score : Option ℚ
  overview : Option String
  status : Option String
  budget : Option ℚ
  revenue : Option ℚ
  country_id : Option (Option Int)
  country : Option (Option String)
  genre_ids : Option (List String)
  actor_ids : Option (List String)
  languages : Option (List String)
  extraFields : List String
deriving DecidableEq, Repr

/-- A validated `MovieCreateUpdateSchema` instance (src/src/schemas/movies.py,
lines 93-144).  The seven content fields plus `country_id` have no default, so
Pydantic requires them; `country`, `genre_ids`, `actor_ids`, `languages` have
defaults and may be absent, and the `set_...` flags record membership in
Pydantic's `model_fields_set` (what `dict(exclude_unset=True)` keeps). -/
structure MovieCreateUpdateSchema where
  name : String
  date : Int
  score : ℚ
  overview : String
  status : MovieStatusEnum
  budget : ℚ
  revenue : ℚ
  country_id : Option Int
  country : Option String
  genre_ids : List String
  actor_ids : List String
  languages : List String
  set_country : Bool
  set_genre_ids : Bool
  set_actor_ids : Bool
  set_languages : Bool
deriving DecidableEq, Repr

/-- The `condecimal(max_digits=15, decimal_places=2)` constraint on `budget`:
at most two decimal places (in lowest terms the denominator divides 100) and
at most 15 digits in total (the value counted in hundredths stays below
10^15). -/
def budgetDigitsOk (q : ℚ) : Bool :=
  100 % q.den == 0 && q.num.natAbs * (100 / q.den) < 10 ^ 15

/-- Pydantic validation of a create/update body against
`MovieCreateUpdateSchema`: every no-default field must be present, then the
field validators of src/src/schemas/movies.py lines 111-144 and the type-level
constraints run.  (Pydantic reports per-field errors; this embedding returns
the first failure, which is observationally equivalent for the properties
proved here, none of which inspect the error message of a 422.) -/
def validatePayload (today : Int) (r : RawPayload) :
    Except String MovieCreateUpdateSchema :=
  match r.name, r.date, r.score, r.overview, r.status, r.budget, r.revenue,
      r.country_id with
  | some name, some date, some score, some overview, some statusStr,
      some budget, some revenue, some cid =>
    if name.length > 255 then
      .error "Name must not exceed 255 characters."
    else if date > today + 365 then
      .error "Date must not be more than one year in the future."
    else if ¬ (0 ≤ score ∧ score ≤ 100) then
      .error "Score must be between 0 and 100."
    else if ¬ budgetDigitsOk budget then
      .error "Decimal input should have at most 15 digits and 2 decimal places."
    else if budget < 0 then
      .error "Budget must be non-negative."
    else if revenue < 0 then
      .error "Revenue must be non-negative."
    else
      match parseStatus statusStr with
      | none => .error "Input should be Released, Post Production or In Production"
      | some st =>
        .ok { name := name, date := date, score := score, overview := overview,
              status := st, budget := budget, revenue := revenue,
              country_id := cid,
              country := r.country.getD none,
              genre_ids := r.genre_ids.getD [],
              actor_ids := r.actor_ids.getD [],
              languages := r.languages.getD [],
              set_country := r.country.isSome,
              set_genre_ids := r.genre_ids.isSome,
              set_actor_ids := r.actor_ids.isSome,
              set_languages := r.languages.isSome }
  | _, _, _, _, _, _, _, _ => .error "Field required"

/-- Modelled from the spec: a reference entity (Country, with nullable name as
in `CountrySchema`); the `database` module holding these models is not part of
src/. -/
structure Country where
  id : Int
  name : Option String
deriving DecidableEq, Repr

/-- Modelled from the spec: the Genre reference entity (identifier + name). -/
structure Genre where
  id : Int
  name : String
deriving DecidableEq, Repr

/-- Modelled from the spec: the Actor reference entity (identifier + name). -/
structure Actor where
  id : Int
  name : String
deriving DecidableEq, Repr

/-- Modelled from the spec: the Language reference entity (identifier + name). -/
structure Language where
  id : Int
  name : String
deriving DecidableEq, Repr

/-- Modelled from the spec: the stored movie row (`MovieModel` of the missing
`database` module), in its relationship-loaded form: the column attributes of
the data-model section of the spec (identifier, name, date, score, overview,
status, budget, revenue, and the nullable country reference), together with
the loaded many-to-many relations.  The spec: a movie has at most one country
(`country_id` is `Option`), and many genres, actors and languages. -/
structure MovieModel where
  id : Int
  name : String
  date : Int
  score : ℚ
  overview : String
  status : MovieStatusEnum
  budget : ℚ
  revenue : ℚ
  country_id : Option Int
  genres : List Genre
  actors : List Actor
  languages : List Language
deriving DecidableEq, Repr

/-- Modelled from the spec: the relational store — the movies table, the four
reference-entity tables, and the identifier generator owned by the storage
layer (`nextId` is the next identifier it will assign). -/
structure DB where
  movies : List MovieModel
  countries : List Country
  genresTable : List Genre
  actorsTable : List Actor
  languagesTable : List Language
  nextId : Int
deriving DecidableEq, Repr

/-- Resolve a movie's nullable country foreign key against the countries
table (what `selectinload(MovieModel.country)` materialises). -/
def lookupCountry (db : DB) : Option Int → Option Country
  | none => none
  | some cid => db.countries.find? (fun c => c.id == cid)

/-- `CountrySchema` of src/src/schemas/movies.py (nullable name). -/
structure CountrySchema where
  id : Int
  name : Option String
deriving DecidableEq, Repr

/-- `GenreSchema` of src/src/schemas/movies.py. -/
structure GenreSchema where
  id : Int
  name : String
deriving DecidableEq, Repr

/-- `ActorSchema` of src/src/schemas/movies.py. -/
structure ActorSchema where
  id : Int
  name : String
deriving DecidableEq, Repr

/-- `LanguageSchema` of src/src/schemas/movies.py. -/
structure LanguageSchema where
  id : Int
  name : String
deriving DecidableEq, Repr

/-- `MovieDetailSchema` of src/src/schemas/movies.py: the full detail view.
Note `country : CountrySchema` is a required, non-optional sub-model. -/
structure MovieDetailSchema where
  id : Int
  name : String
  date : Int
  score : ℚ
  overview : String
  status : MovieStatusEnum
  budget : ℚ
  revenue : ℚ
  country : CountrySchema
  genres : List GenreSchema
  actors : List ActorSchema
  languages : List LanguageSchema
deriving DecidableEq, Repr

/-- `MovieListItemSchema` of src/src/schemas/movies.py: the summary view. -/
structure MovieListItemSchema where
  id : Int
  name : String
  date : Int
  score : ℚ
  overview : String
deriving DecidableEq, Repr

/-- `MovieListResponseSchema` of src/src/schemas/movies.py. -/
structure MovieListResponseSchema where
  movies : List MovieListItemSchema
  total_pages : Int
  total_items : Int
  next_page : Option Int
  prev_page : Option Int
deriving DecidableEq, Repr

/-- FastAPI `response_model` validation of a returned ORM object against
`MovieDetailSchema` (`from_attributes`).  `country` has no default and does
not admit `None`, so a movie whose country relationship is absent (or whose
foreign key does not resolve) fails response validation and the serialisation
yields nothing. -/
def serializeDetail (db : DB) (m : MovieModel) : Option MovieDetailSchema :=
  match lookupCountry db m.country_id with
  | none => none
  | some c =>
    some { id := m.id, name := m.name, date := m.date, score := m.score,
           overview := m.overview, status := m.status, budget := m.budget,
           revenue := m.revenue,
           country := { id := c.id, name := c.name },
           genres := m.genres.map (fun g => { id := g.id, name := g.name }),
           actors := m.actors.map (fun a => { id := a.id, name := a.name }),
           languages := m.languages.map (fun l => { id := l.id, name := l.name }) }

/-- The possible outcomes of a request: a success response with status code
and body, an `HTTPException` with status code and detail message, a 422
request-validation error raised before the handler runs, or an exception the
handler does not catch escaping to the framework. -/
inductive ApiResponse (α : Type) where
  | ok (statusCode : Nat) (body : α)
  | httpError (statusCode : Nat) (detail : String)
  | validationError (msg : String)
  | serverError (msg : String)
deriving DecidableEq, Repr

/-- Whether a response is a 422 request-validation error. -/
def ApiResponse.isValidationError {α : Type} : ApiResponse α → Bool
  | .validationError _ => true
  | _ => false

/-- Insert a movie into a list that is sorted by descending identifier. -/
def insertByIdDesc (m : MovieModel) : List MovieModel → List MovieModel
  | [] => [m]
  | x :: xs => if x.id ≤ m.id then m :: x :: xs else x :: insertByIdDesc m xs

/-- Sort movies by descending identifier (`order_by(MovieModel.id.desc())`). -/
def sortByIdDesc : List MovieModel → List MovieModel
  | [] => []
  | x :: xs => insertByIdDesc x (sortByIdDesc xs)

/-- The page of movies the list query returns:
`offset((page-1)*per_page).limit(per_page)` over the id-descending order. -/
def pageSlice (db : DB) (page per_page : Int) : List MovieModel :=
  (((sortByIdDesc db.movies).drop ((page - 1) * per_page).toNat).take
    per_page.toNat)

/-- The `get_movies` route (src/src/routes/movies.py lines 50-80), including
the `PaginationParams` constraints `page ≥ 1`, `1 ≤ per_page ≤ 20` that
FastAPI enforces before the handler runs.  `total_pages` is
`math.ceil(total / per_page)` with Python 3 true division. -/
def get_movies_route (db : DB) (page per_page : Int) :
    ApiResponse MovieListResponseSchema :=
  if page < 1 ∨ per_page < 1 ∨ 20 < per_page then
    .validationError "Input should be greater than or equal to 1"
  else
    let films := pageSlice db page per_page
    if films.isEmpty then
      .httpError 404 "No movies found."
    else
      let total : Int := db.movies.length
      let total_pages : Int := ⌈(total : ℚ) / (per_page : ℚ)⌉
      .ok 200
        { movies := films.map (fun m =>
            { id := m.id, name := m.name, date := m.date, score := m.score,
              overview := m.overview }),
          total_pages := total_pages,
          total_items := total,
          next_page := if page ≥ total_pages then none else some (page + 1),
          prev_page := if page > 1 then some (page - 1) else none }

/-- Look a movie up by identifier (`scalar_one_or_none` on a primary-key
filter: the storage layer guarantees at most one row per identifier). -/
def findFilm (db : DB) (film_id : Int) : Option MovieModel :=
  db.movies.find? (fun m => m.id == film_id)

/-- The `get_movie` route with `get_film_or_404` (src/src/routes/movies.py
lines 31-47 and 83-92): fetch with eager-loaded relations, 404 when missing,
then `response_model=MovieDetailSchema` validation of the result. -/
def get_movie_route (db : DB) (movie_id : Int) : ApiResponse MovieDetailSchema :=
  match findFilm db movie_id with
  | none => .httpError 404 "Movie with the given ID was not found."
  | some film =>
    match serializeDetail db film with
    | none => .serverError "ResponseValidationError"
    | some d => .ok 200 d

/-- Modelled from the spec: construction of the new `MovieModel` from the
validated payload (`MovieModel(**film.dict())` plus the storage layer's
identifier assignment; the `database` module is not part of src/).  The column
attributes come from the payload's corresponding fields; the spec's reference
entities are looked up when referenced by id (genres, actors) or name
(languages); the storage layer assigns the next free identifier. -/
def mkMovie (db : DB) (p : MovieCreateUpdateSchema) : MovieModel :=
  { id := db.nextId, name := p.name, date := p.date, score := p.score,
    overview := p.overview, status := p.status, budget := p.budget,
    revenue := p.revenue, country_id := p.country_id,
    genres := db.genresTable.filter (fun g => p.genre_ids.contains (toString g.id)),
    actors := db.actorsTable.filter (fun a => p.actor_ids.contains (toString a.id)),
    languages := db.languagesTable.filter (fun l => p.languages.contains l.name) }

/-- The `add_film` route (src/src/routes/movies.py lines 95-123): body
validation, the handler's own duplicate check on (name, date) via
`scalar_one_or_none` (409 on one match, `MultipleResultsFound` escapes on
more), then insert and commit.  `integrityViolation` models the storage layer
rejecting the commit (e.g. the uniqueness constraint violated by a concurrent
insert after the duplicate check passed): the handler has no try/except, so
the `IntegrityError` escapes.  On success the refreshed row passes through
`response_model=MovieDetailSchema` validation. -/
def add_film_route (today : Int) (db : DB) (raw : RawPayload)
    (integrityViolation : Bool) : DB × ApiResponse MovieDetailSchema :=
  match validatePayload today raw with
  | .error e => (db, .validationError e)
  | .ok p =>
    match db.movies.filter (fun m => m.name == p.name && m.date == p.date) with
    | [] =>
      let newFilm := mkMovie db p
      if integrityViolation then
        (db, .serverError "IntegrityError")
      else
        let db' : DB := { db with movies := db.movies ++ [newFilm],
                                  nextId := db.nextId + 1 }
        (db',
         match serializeDetail db' newFilm with
         | none => .serverError "ResponseValidationError"
         | some d => .ok 201 d)
    | [_] => (db, .httpError 409 "Movie with the same name and date already exists.")
    | _ => (db, .serverError "MultipleResultsFound")

/-- The update step of `edit_film` (src/src/routes/movies.py lines 131-136):
`film.dict(exclude_unset=True)` always contains the eight no-default schema
fields (any validated payload supplies them) and whichever defaulted fields
were set; of all schema fields exactly `name`, `date`, `score`, `overview`,
`status`, `budget`, `revenue`, `country_id` are columns of `MovieModel`, so
the `key in model_columns` loop assigns precisely these and silently drops
`country`, `genre_ids`, `actor_ids`, `languages`, leaving the relations and
every other attribute of the row untouched. -/
def applyUpdate (f : MovieModel) (p : MovieCreateUpdateSchema) : MovieModel :=
  { f with name := p.name, date := p.date, score := p.score,
           overview := p.overview, status := p.status, budget := p.budget,
           revenue := p.revenue, country_id := p.country_id }

/-- The `edit_film` route (src/src/routes/movies.py lines 126-140): FastAPI
validates the body against `MovieCreateUpdateSchema` before the handler runs,
then `get_film_or_404`, the column-filtered attribute assignment, commit, and
`response_model=MovieDetailSchema` validation of the refreshed row. -/
def edit_film_route (today : Int) (db : DB) (film_id : Int) (raw : RawPayload) :
    DB × ApiResponse MovieDetailSchema :=
  match validatePayload today raw with
  | .error e => (db, .validationError e)
  | .ok p =>
    match findFilm db film_id with
    | none => (db, .httpError 404 "Movie with the given ID was not found.")
    | some f =>
      let updated := db.movies.map (fun m => if m.id == film_id then applyUpdate m p else m)
      let db' : DB := { db with movies := updated }
      (db',
       match serializeDetail db' (applyUpdate f p) with
       | none => .serverError "ResponseValidationError"
       | some d => .ok 200 d)

/-- The `remove_film` route (src/src/routes/movies.py lines 143-148):
`get_film_or_404`, delete the row (the primary key is unique, so deleting the
found object removes exactly the rows with that identifier), commit, and an
empty 204 response. -/
def remove_film_route (db : DB) (film_id : Int) : DB × ApiResponse Unit :=
  match findFilm db film_id with
  | none => (db, .httpError 404 "Movie with the given ID was not found.")
  | some _ =>
    ({ db with movies := db.movies.filter (fun m => !(m.id == film_id)) },
     .ok 204 ())

/-- A supplied score outside [0, 100]. -/
def scoreViolation (r : RawPayload) : Bool :=
  match r.score with
  | some s => !(decide (0 ≤ s ∧ s ≤ 100))
  | none => false

/-- A supplied negative budget. -/
def budgetViolation (r : RawPayload) : Bool :=
  match r.budget with
  | some b => decide (b < 0)
  | none => false

/-- A supplied negative revenue. -/
def revenueViolation (r : RawPayload) : Bool :=
  match r.revenue with
  | some v => decide (v < 0)
  | none => false

/-- A supplied date more than 365 days after the current date. -/
def dateViolation (today : Int) (r : RawPayload) : Bool :=
  match r.date with
  | some d => decide (d > today + 365)
  | none => false

/-- A supplied name longer than 255 characters. -/
def nameViolation (r : RawPayload) : Bool :=
  match r.name with
  | some n => decide (n.length > 255)
  | none => false

/-- A supplied status that is none of the three enumerated values. -/
def statusViolation (r : RawPayload) : Bool :=
  match r.status with
  | some s => (parseStatus s).isNone
  | none => false

/-- A payload exhibiting at least one of the constraint violations that the
spec lists for create/update input. -/
def violatesConstraints (today : Int) (r : RawPayload) : Bool :=
  scoreViolation r || budgetViolation r || revenueViolation r ||
    dateViolation today r || nameViolation r || statusViolation r

/-- Soundness of the embedded Pydantic validation: a payload that validates
supplies every no-default field, the parsed fields are exactly the supplied
values, and every field validator's constraint holds of them. -/
theorem validatePayload_ok (today : Int) (r : RawPayload)
    (p : MovieCreateUpdateSchema) (h : validatePayload today r = .ok p) :
    r.name = some p.name ∧ r.date = some p.date ∧ r.score = some p.score ∧
    r.overview = some p.overview ∧
    (∃ s, r.status = some s ∧ parseStatus s = some p.status) ∧
    r.budget = some p.budget ∧ r.revenue = some p.revenue ∧
    r.country_id = some p.country_id ∧
    p.name.length ≤ 255 ∧ p.date ≤ today + 365 ∧
    0 ≤ p.score ∧ p.score ≤ 100 ∧ 0 ≤ p.budget ∧ 0 ≤ p.revenue := by
  unfold validatePayload at h
  split at h
  case _ name date score overview statusStr budget revenue cid hn hd hs ho hst hb hr hc =>
    split_ifs at h with h1 h2 h3 h4 h5 h6
    split at h
    case _ => exact absurd h (by simp)
    case _ st hps =>
      rw [Except.ok.injEq] at h
      subst h
      dsimp only
      push_neg at h3
      refine ⟨hn, hd, hs, ho, ⟨statusStr, hst, hps⟩, hb, hr, hc, ?_, ?_, ?_, ?_, ?_, ?_⟩
      · omega
      · omega
      · exact h3.1
      · exact h3.2
      · exact not_lt.mp h5
      · exact not_lt.mp h6
  case _ =>
    exact absurd h (by simp)

/-- A payload violating one of the listed constraints never validates. -/
theorem validatePayload_error_of_violation (today : Int) (r : RawPayload)
    (h : violatesConstraints today r = true) :
    ∃ e, validatePayload today r = .error e := by
  cases hv : validatePayload today r with
  | error e => exact ⟨e, rfl⟩
  | ok p =>
    exfalso
    obtain ⟨hn, hd, hs, ho, ⟨st, hst, hstp⟩, hb, hr, _, hlen, hdate, hs0, hs1, hb0, hr0⟩ :=
      validatePayload_ok today r p hv
    have h1 : scoreViolation r = false := by
      simp [scoreViolation, hs]
      exact ⟨hs0, hs1⟩
    have h2 : budgetViolation r = false := by
      simp [budgetViolation, hb]
      exact hb0
    have h3 : revenueViolation r = false := by
      simp [revenueViolation, hr]
      exact hr0
    have h4 : dateViolation today r = false := by
      simp [dateViolation, hd]
      omega
    have h5 : nameViolation r = false := by
      simp [nameViolation, hn]
      omega
    have h6 : statusViolation r = false := by
      simp [statusViolation, hst, hstp]
    simp [violatesConstraints, h1, h2, h3, h4, h5, h6] at h

/-- A payload missing any of the seven content fields never validates. -/
theorem validatePayload_error_of_missing (today : Int) (r : RawPayload)
    (h : r.name = none ∨ r.date = none ∨ r.score = none ∨ r.overview = none ∨
         r.status = none ∨ r.budget = none ∨ r.revenue = none) :
    ∃ e, validatePayload today r = .error e := by
  cases hv : validatePayload today r with
  | error e => exact ⟨e, rfl⟩
  | ok p =>
    exfalso
    obtain ⟨hn, hd, hs, ho, ⟨st, hst, _⟩, hb, hr, _⟩ :=
      validatePayload_ok today r p hv
    rcases h with h | h | h | h | h | h | h <;> simp_all

/-- A sample country row. -/
def countryUS : Country := { id := 1, name := some "United States" }

/-- A sample stored movie with loaded relations. -/
def exMovie : MovieModel :=
  { id := 1, name := "Inception", date := 14806, score := 87,
    overview := "A mind-bending thriller", status := .released,
    budget := 160000000, revenue := 836800000, country_id := some 1,
    genres := [{ id := 1, name := "Sci-Fi" }],
    actors := [{ id := 1, name := "Leonardo DiCaprio" }],
    languages := [{ id := 1, name := "English" }] }

/-- A sample database holding `exMovie`. -/
def exDB : DB :=
  { movies := [exMovie], countries := [countryUS],
    genresTable := [{ id := 1, name := "Sci-Fi" }],
    actorsTable := [{ id := 1, name := "Leonardo DiCaprio" }],
    languagesTable := [{ id := 1, name := "English" }], nextId := 2 }

/-- A database with no movies. -/
def exEmptyDB : DB :=
  { movies := [], countries := [countryUS], genresTable := [],
    actorsTable := [], languagesTable := [], nextId := 1 }

/-- A complete, constraint-satisfying request body. -/
def rawFull : RawPayload :=
  { name := some "Dune", date := some 18500, score := some 83,
    overview := some "Desert planet epic", status := some "Released",
    budget := some 165000000, revenue := some 400000000,
    country_id := some (some 1), country := none, genre_ids := none,
    actor_ids := none, languages := none, extraFields := [] }

/-- A request body whose score is out of range and whose other fields are
valid. -/
def rawBadScore : RawPayload := { rawFull with score := some 150 }

/-- A request body supplying only a score, as in a minimal PATCH. -/
def rawScoreOnly : RawPayload :=
  { name := none, date := none, score := some 90, overview := none,
    status := none, budget := none, revenue := none, country_id := none,
    country := none, genre_ids := none, actor_ids := none, languages := none,
    extraFields := [] }

/-- C6: a create or update payload whose score is outside [0, 100], whose
budget or revenue is negative, whose date is more than 365 days after the
current date, whose name exceeds 255 characters, or whose status is not one
of the three enumerated values, is rejected with a validation error before
any storage access: both routes leave the stored state unchanged and answer
with a request-validation error. -/
theorem C6_validation_before_storage (today : Int) (db : DB) (raw : RawPayload)
    (film_id : Int) (io : Bool)
    (h : violatesConstraints today raw = true) :
    (add_film_route today db raw io).1 = db ∧
    ((add_film_route today db raw io).2).isValidationError = true ∧
    (edit_film_route today db film_id raw).1 = db ∧
    ((edit_film_route today db film_id raw).2).isValidationError = true := by
  obtain ⟨e, he⟩ := validatePayload_error_of_violation today raw h
  unfold add_film_route edit_film_route
  rw [he]
  exact ⟨rfl, rfl, rfl, rfl⟩

/-- Witness for C6 at a concrete out-of-range score. -/
theorem C6_validation_before_storage_witness :
    violatesConstraints 18500 rawBadScore = true ∧
    ((add_film_route 18500 exDB rawBadScore false).1 = exDB ∧
     ((add_film_route 18500 exDB rawBadScore false).2).isValidationError = true ∧
     (edit_film_route 18500 exDB 1 rawBadScore).1 = exDB ∧
     ((edit_film_route 18500 exDB 1 rawBadScore).2).isValidationError = true) :=
  ⟨by decide, C6_validation_before_storage 18500 exDB rawBadScore 1 false (by decide)⟩

/-- C10: an update (PATCH) body must contain all of name, date, score,
overview, status, budget and revenue; a body omitting any of them is rejected
with a validation error before the stored record is read or modified: the
state is returned unchanged whatever record the identifier names. -/
theorem C10_update_requires_all_fields (today : Int) (db : DB) (film_id : Int)
    (raw : RawPayload)
    (h : raw.name = none ∨ raw.date = none ∨ raw.score = none ∨
         raw.overview = none ∨ raw.status = none ∨ raw.budget = none ∨
         raw.revenue = none) :
    (edit_film_route today db film_id raw).1 = db ∧
    ((edit_film_route today db film_id raw).2).isValidationError = true := by
  obtain ⟨e, he⟩ := validatePayload_error_of_missing today raw h
  unfold edit_film_route
  rw [he]
  exact ⟨rfl, rfl⟩

/-- Witness for C10: a score-only PATCH body against a database in which the
target movie exists. -/
theorem C10_update_requires_all_fields_witness :
    (rawScoreOnly.name = none ∨ rawScoreOnly.date = none ∨
     rawScoreOnly.score = none ∨ rawScoreOnly.overview = none ∨
     rawScoreOnly.status = none ∨ rawScoreOnly.budget = none ∨
     rawScoreOnly.revenue = none) ∧
    ((edit_film_route 18500 exDB 1 rawScoreOnly).1 = exDB ∧
     ((edit_film_route 18500 exDB 1 rawScoreOnly).2).isValidationError = true) :=
  ⟨by decide,
   C10_update_requires_all_fields 18500 exDB 1 rawScoreOnly (by decide)⟩

/-- The validated form of `rawFull`. -/
def pFull : MovieCreateUpdateSchema :=
  { name := "Dune", date := 18500, score := 83,
    overview := "Desert planet epic", status := .released,
    budget := 165000000, revenue := 400000000, country_id := some 1,
    country := none, genre_ids := [], actor_ids := [], languages := [],
    set_country := false, set_genre_ids := false, set_actor_ids := false,
    set_languages := false }

/-- C1, counterexample: a PATCH body containing only `score` does not
succeed — `MovieCreateUpdateSchema` requires the other content fields, so the
request is rejected with a validation error and the stored movie keeps its
prior score. -/
theorem C1_counterexample :
    (edit_film_route 18500 exDB 1 rawScoreOnly).2 =
      ApiResponse.validationError "Field required" ∧
    (edit_film_route 18500 exDB 1 rawScoreOnly).1 = exDB := by
  exact ⟨by decide, by decide⟩

/-- C1, amended: a PATCH whose body passes validation (hence supplies every
no-default field) updates exactly the column fields of the addressed record
from the payload; the payload's non-column fields (`country`, `genre_ids`,
`actor_ids`, `languages`) are silently ignored, the record's identifier and
loaded relations are untouched, every other record is untouched, and the rest
of the store is untouched. -/
theorem C1_update_frame (today : Int) (db : DB) (film_id : Int)
    (raw : RawPayload) (p : MovieCreateUpdateSchema) (f : MovieModel)
    (hv : validatePayload today raw = .ok p)
    (hf : findFilm db film_id = some f) :
    (edit_film_route today db film_id raw).1 =
      { db with movies :=
          db.movies.map (fun m => if m.id == film_id then applyUpdate m p else m) } ∧
    (applyUpdate f p).id = f.id ∧
    (applyUpdate f p).genres = f.genres ∧
    (applyUpdate f p).actors = f.actors ∧
    (applyUpdate f p).languages = f.languages ∧
    (applyUpdate f p).name = p.name ∧
    (applyUpdate f p).date = p.date ∧
    (applyUpdate f p).score = p.score ∧
    (applyUpdate f p).overview = p.overview ∧
    (applyUpdate f p).status = p.status ∧
    (applyUpdate f p).budget = p.budget ∧
    (applyUpdate f p).revenue = p.revenue ∧
    (applyUpdate f p).country_id = p.country_id := by
  unfold edit_film_route
  rw [hv, hf]
  exact ⟨rfl, rfl, rfl, rfl, rfl, rfl, rfl, rfl, rfl, rfl, rfl, rfl, rfl⟩

/-- Witness for C1's amended claim at a concrete full PATCH body. -/
theorem C1_update_frame_witness :
    (validatePayload 18500 rawFull = .ok pFull ∧ findFilm exDB 1 = some exMovie) ∧
    ((edit_film_route 18500 exDB 1 rawFull).1 =
      { exDB with movies :=
          exDB.movies.map (fun m => if m.id == 1 then applyUpdate m pFull else m) } ∧
     (applyUpdate exMovie pFull).id = exMovie.id ∧
     (applyUpdate exMovie pFull).genres = exMovie.genres ∧
     (applyUpdate exMovie pFull).actors = exMovie.actors ∧
     (applyUpdate exMovie pFull).languages = exMovie.languages ∧
     (applyUpdate exMovie pFull).name = pFull.name ∧
     (applyUpdate exMovie pFull).date = pFull.date ∧
     (applyUpdate exMovie pFull).score = pFull.score ∧
     (applyUpdate exMovie pFull).overview = pFull.overview ∧
     (applyUpdate exMovie pFull).status = pFull.status ∧
     (applyUpdate exMovie pFull).budget = pFull.budget ∧
     (applyUpdate exMovie pFull).revenue = pFull.revenue ∧
     (applyUpdate exMovie pFull).country_id = pFull.country_id) :=
  ⟨⟨by rfl, by rfl⟩,
   C1_update_frame 18500 exDB 1 rawFull pFull exMovie (by rfl) (by rfl)⟩

/-- C3: with valid pagination parameters, a page with zero rows answers 404
"No movies found.", and the response is identical with an emptied catalogue:
a page beyond the last page is treated the same as no movies at all. -/
theorem C3_empty_page_not_found (db : DB) (page per_page : Int)
    (hp : 1 ≤ page) (hpp1 : 1 ≤ per_page) (hpp2 : per_page ≤ 20)
    (hempty : pageSlice db page per_page = []) :
    get_movies_route db page per_page = .httpError 404 "No movies found." ∧
    get_movies_route { db with movies := [] } page per_page =
      get_movies_route db page per_page := by
  have hv : ¬ (page < 1 ∨ per_page < 1 ∨ 20 < per_page) := by omega
  have hempty2 : pageSlice { db with movies := [] } page per_page = [] := by
    simp [pageSlice, sortByIdDesc, List.drop_nil, List.take_nil]
  constructor
  · unfold get_movies_route
    rw [if_neg hv, hempty]
    rfl
  · unfold get_movies_route
    rw [if_neg hv, if_neg hv, hempty, hempty2]
    rfl

/-- Witness for C3: a one-movie catalogue queried at page 2 of size 10. -/
theorem C3_empty_page_not_found_witness :
    (1 ≤ (2 : Int) ∧ 1 ≤ (10 : Int) ∧ (10 : Int) ≤ 20 ∧
     pageSlice exDB 2 10 = []) ∧
    (get_movies_route exDB 2 10 = .httpError 404 "No movies found." ∧
     get_movies_route { exDB with movies := [] } 2 10 =
       get_movies_route exDB 2 10) :=
  ⟨⟨by decide, by decide, by decide, by decide⟩,
   C3_empty_page_not_found exDB 2 10 (by decide) (by decide) (by decide)
     (by decide)⟩

/-- C4: on a successful list response with valid parameters, `total_items` is
the full-table count, `total_pages` is the ceiling of `total_items /
per_page` (equivalently, it is the least page count covering all rows), and
`next_page` / `prev_page` are present exactly when a following or preceding
page exists. -/
theorem C4_pagination_metadata (db : DB) (page per_page : Int)
    (resp : MovieListResponseSchema)
    (hp : 1 ≤ page) (hpp1 : 1 ≤ per_page) (hpp2 : per_page ≤ 20)
    (h : get_movies_route db page per_page = .ok 200 resp) :
    resp.total_items = (db.movies.length : Int) ∧
    resp.total_pages = ⌈(db.movies.length : ℚ) / (per_page : ℚ)⌉ ∧
    (db.movies.length : Int) ≤ resp.total_pages * per_page ∧
    (resp.total_pages - 1) * per_page < (db.movies.length : Int) ∧
    resp.next_page = (if page < resp.total_pages then some (page + 1) else none) ∧
    resp.prev_page = (if 1 < page then some (page - 1) else none) := by
  have hv : ¬ (page < 1 ∨ per_page < 1 ∨ 20 < per_page) := by omega
  unfold get_movies_route at h
  rw [if_neg hv] at h
  cases hfilms : pageSlice db page per_page with
  | nil =>
    rw [hfilms] at h
    simp at h
  | cons x xs =>
    rw [hfilms] at h
    simp only [List.isEmpty_cons, Bool.false_eq_true, if_false,
      ApiResponse.ok.injEq] at h
    obtain ⟨-, h⟩ := h
    subst h
    have hppq : (0 : ℚ) < (per_page : ℚ) := by exact_mod_cast hpp1
    have hcast : ((db.movies.length : Int) : ℚ) = (db.movies.length : ℚ) := by
      push_cast
      rfl
    dsimp only
    rw [hcast]
    refine ⟨rfl, rfl, ?_, ?_, ?_, rfl⟩
    · have h1 : (db.movies.length : ℚ) / (per_page : ℚ) ≤
          ((⌈(db.movies.length : ℚ) / (per_page : ℚ)⌉ : Int) : ℚ) :=
        Int.le_ceil _
      have h2 : (db.movies.length : ℚ) ≤
          ((⌈(db.movies.length : ℚ) / (per_page : ℚ)⌉ : Int) : ℚ) * (per_page : ℚ) :=
        (div_le_iff₀ hppq).mp h1
      exact_mod_cast h2
    · have h1 : ((⌈(db.movies.length : ℚ) / (per_page : ℚ)⌉ : Int) : ℚ) <
          (db.movies.length : ℚ) / (per_page : ℚ) + 1 :=
        Int.ceil_lt_add_one _
      have h2 : ((⌈(db.movies.length : ℚ) / (per_page : ℚ)⌉ : Int) : ℚ) - 1 <
          (db.movies.length : ℚ) / (per_page : ℚ) := by
        linarith
      have h3 : (((⌈(db.movies.length : ℚ) / (per_page : ℚ)⌉ : Int) : ℚ) - 1) *
          (per_page : ℚ) < (db.movies.length : ℚ) :=
        (lt_div_iff₀ hppq).mp h2
      exact_mod_cast h3
    · by_cases hpg : page < ⌈(db.movies.length : ℚ) / (per_page : ℚ)⌉
      · rw [if_neg (not_le.mpr hpg), if_pos hpg]
      · rw [if_pos (not_lt.mp hpg), if_neg hpg]

/-- The list response for `exDB` at page 1 with 10 per page. -/
def exListResp : MovieListResponseSchema :=
  { movies := [{ id := 1, name := "Inception", date := 14806, score := 87,
                 overview := "A mind-bending thriller" }],
    total_pages := 1, total_items := 1, next_page := none, prev_page := none }

/-- Witness for C4 on a one-movie catalogue at page 1 of size 10. -/
theorem C4_pagination_metadata_witness :
    (1 ≤ (1 : Int) ∧ 1 ≤ (10 : Int) ∧ (10 : Int) ≤ 20 ∧
     get_movies_route exDB 1 10 = .ok 200 exListResp) ∧
    (exListResp.total_items = (exDB.movies.length : Int) ∧
     exListResp.total_pages = ⌈(exDB.movies.length : ℚ) / ((10 : Int) : ℚ)⌉ ∧
     (exDB.movies.length : Int) ≤ exListResp.total_pages * 10 ∧
     (exListResp.total_pages - 1) * 10 < (exDB.movies.length : Int) ∧
     exListResp.next_page =
       (if (1 : Int) < exListResp.total_pages then some (1 + 1) else none) ∧
     exListResp.prev_page = (if (1 : Int) > 1 then some (1 - 1) else none)) := by
  have hceil : (⌈((exDB.movies.length : Int) : ℚ) / (((10 : Int)) : ℚ)⌉ : Int) = 1 := by
    show (⌈((1 : Int) : ℚ) / (((10 : Int)) : ℚ)⌉ : Int) = 1
    rw [Int.ceil_eq_iff]
    constructor <;> norm_num
  have hroute : get_movies_route exDB 1 10 = .ok 200 exListResp := by
    unfold get_movies_route
    rw [if_neg (by decide)]
    rw [show pageSlice exDB 1 10 = [exMovie] from by decide]
    simp only [List.isEmpty_cons, Bool.false_eq_true, if_false]
    rw [hceil]
    decide
  exact ⟨⟨by norm_num, by norm_num, by norm_num, hroute⟩,
         C4_pagination_metadata exDB 1 10 exListResp (by norm_num) (by norm_num)
           (by norm_num) hroute⟩

/-- In a list whose entries pairwise never both satisfy `pred`, filtering by
`pred` returns exactly the one matching member. -/
theorem filter_eq_singleton_of_pairwise {α : Type} (pred : α → Bool)
    (l : List α) (m : α) (hm : m ∈ l) (hpm : pred m = true)
    (hpw : l.Pairwise (fun a b => ¬(pred a = true ∧ pred b = true))) :
    l.filter pred = [m] := by
  induction l with
  | nil => cases hm
  | cons x xs ih =>
    obtain ⟨hx, hxs⟩ := List.pairwise_cons.mp hpw
    rcases List.mem_cons.mp hm with rfl | hmem
    · rw [List.filter_cons_of_pos hpm]
      have hnil : xs.filter pred = [] := by
        rw [List.filter_eq_nil_iff]
        intro y hy hpy
        exact hx y hy ⟨hpm, hpy⟩
      rw [hnil]
    · have hpx : ¬ pred x = true := fun hpx => hx m hmem ⟨hpx, hpm⟩
      rw [List.filter_cons_of_neg (by simpa using hpx)]
      exact ih hmem hxs

/-- C5: a create whose (name, date) pair is already stored answers 409 with
the message "Movie with the same name and date already exists.", whatever the
other payload fields hold and independently of the storage layer's own
verdict (the conflict is raised before the insert is attempted).  The
pairwise hypothesis is the spec's invariant that no two stored movies share a
(name, date) pair, which the handler relies on through
`scalar_one_or_none`. -/
theorem C5_duplicate_conflict (today : Int) (db : DB) (raw : RawPayload)
    (p : MovieCreateUpdateSchema) (m : MovieModel) (io : Bool)
    (hv : validatePayload today raw = .ok p)
    (hm : m ∈ db.movies) (hname : m.name = p.name) (hdate : m.date = p.date)
    (huniq : db.movies.Pairwise (fun a b => ¬(a.name = b.name ∧ a.date = b.date))) :
    add_film_route today db raw io =
      (db, .httpError 409 "Movie with the same name and date already exists.") := by
  have hpm : (fun x => x.name == p.name && x.date == p.date) m = true := by
    simp [hname, hdate]
  have hflt : db.movies.filter (fun x => x.name == p.name && x.date == p.date) = [m] := by
    refine filter_eq_singleton_of_pairwise _ _ m hm hpm (List.Pairwise.imp ?_ huniq)
    intro a b hab hcontra
    obtain ⟨ha, hb⟩ := hcontra
    simp only [Bool.and_eq_true, beq_iff_eq] at ha hb
    exact hab ⟨ha.1.trans hb.1.symm, ha.2.trans hb.2.symm⟩
  unfold add_film_route
  rw [hv]
  dsimp only
  rw [hflt]

/-- A duplicate create body: same (name, date) as `exMovie`, different other
fields. -/
def rawDup : RawPayload :=
  { rawFull with name := some "Inception", date := some 14806 }

/-- The validated form of `rawDup`. -/
def pDup : MovieCreateUpdateSchema :=
  { pFull with name := "Inception", date := 14806 }

/-- Witness for C5: re-creating (Inception, 14806) with different score,
overview, budget and revenue. -/
theorem C5_duplicate_conflict_witness :
    (validatePayload 18500 rawDup = .ok pDup ∧ exMovie ∈ exDB.movies ∧
     exMovie.name = pDup.name ∧ exMovie.date = pDup.date ∧
     exDB.movies.Pairwise (fun a b => ¬(a.name = b.name ∧ a.date = b.date))) ∧
    add_film_route 18500 exDB rawDup false =
      (exDB, .httpError 409 "Movie with the same name and date already exists.") :=
  ⟨⟨by rfl, by decide, by decide, by decide, by decide⟩,
   C5_duplicate_conflict 18500 exDB rawDup pDup exMovie false (by rfl)
     (by decide) (by decide) (by decide) (by decide)⟩

/-- Finding by an identifier after filtering that identifier out fails. -/
theorem find_filter_out (l : List MovieModel) (fid : Int) :
    (l.filter (fun m => !(m.id == fid))).find? (fun m => m.id == fid) = none := by
  rw [List.find?_eq_none]
  intro x hx
  have hne := (List.mem_filter.mp hx).2
  simpa using hne

/-- C9: deleting a stored movie answers an empty 204 response, and a
subsequent get-by-id for the same identifier answers the not-found error. -/
theorem C9_delete_then_not_found (db : DB) (film_id : Int) (f : MovieModel)
    (hf : findFilm db film_id = some f) :
    (remove_film_route db film_id).2 = .ok 204 () ∧
    get_movie_route (remove_film_route db film_id).1 film_id =
      .httpError 404 "Movie with the given ID was not found." := by
  unfold remove_film_route
  rw [hf]
  refine ⟨rfl, ?_⟩
  unfold get_movie_route findFilm
  dsimp only
  rw [find_filter_out]

/-- Witness for C9: deleting movie 1 from the sample database. -/
theorem C9_delete_then_not_found_witness :
    findFilm exDB 1 = some exMovie ∧
    ((remove_film_route exDB 1).2 = .ok 204 () ∧
     get_movie_route (remove_film_route exDB 1).1 1 =
       .httpError 404 "Movie with the given ID was not found.") :=
  ⟨by decide, C9_delete_then_not_found exDB 1 exMovie (by decide)⟩

/-- A stored movie with no associated country, which the data model permits
(`country_id` is nullable). -/
def noCountryMovie : MovieModel :=
  { id := 7, name := "Stateless", date := 15000, score := 70,
    overview := "A movie with no country attached", status := .inProduction,
    budget := 1000, revenue := 0, country_id := none,
    genres := [], actors := [], languages := [] }

/-- A database holding the countryless movie. -/
def noCountryDB : DB :=
  { movies := [noCountryMovie], countries := [countryUS], genresTable := [],
    actorsTable := [], languagesTable := [], nextId := 8 }

/-- C7, counterexample: movie 7 is stored but has no country, and get-by-id
does not return the detail view: `MovieDetailSchema.country` is required, so
response-model validation fails and the request ends in a server error. -/
theorem C7_counterexample :
    findFilm noCountryDB 7 = some noCountryMovie ∧
    get_movie_route noCountryDB 7 = .serverError "ResponseValidationError" :=
  ⟨by decide, by decide⟩

/-- C7, amended: for every stored movie whose country reference resolves to a
stored country, get-by-id returns the full detail view with the country,
genre, actor and language views nested; a movie with no (or an unresolvable)
country instead fails response serialisation. -/
theorem C7_detail_view (db : DB) (movie_id : Int) (m : MovieModel) (c : Country)
    (hf : findFilm db movie_id = some m)
    (hc : lookupCountry db m.country_id = some c) :
    get_movie_route db movie_id = .ok 200
      { id := m.id, name := m.name, date := m.date, score := m.score,
        overview := m.overview, status := m.status, budget := m.budget,
        revenue := m.revenue, country := { id := c.id, name := c.name },
        genres := m.genres.map (fun g => { id := g.id, name := g.name }),
        actors := m.actors.map (fun a => { id := a.id, name := a.name }),
        languages := m.languages.map (fun l => { id := l.id, name := l.name }) } := by
  unfold get_movie_route
  rw [hf]
  dsimp only
  unfold serializeDetail
  rw [hc]

/-- Witness for C7's amended claim on the sample database. -/
theorem C7_detail_view_witness :
    (findFilm exDB 1 = some exMovie ∧
     lookupCountry exDB exMovie.country_id = some countryUS) ∧
    get_movie_route exDB 1 = .ok 200
      { id := exMovie.id, name := exMovie.name, date := exMovie.date,
        score := exMovie.score, overview := exMovie.overview,
        status := exMovie.status, budget := exMovie.budget,
        revenue := exMovie.revenue,
        country := { id := countryUS.id, name := countryUS.name },
        genres := exMovie.genres.map (fun g => { id := g.id, name := g.name }),
        actors := exMovie.actors.map (fun a => { id := a.id, name := a.name }),
        languages := exMovie.languages.map (fun l => { id := l.id, name := l.name }) } :=
  ⟨⟨by decide, by decide⟩,
   C7_detail_view exDB 1 exMovie countryUS (by decide) (by decide)⟩

/-- A valid create body whose nullable country reference is an explicit
null. -/
def rawNullCountry : RawPayload := { rawFull with country_id := some none }

/-- C8, counterexample: a valid, non-duplicate create body carrying a null
country reference is accepted and persisted, but the operation does not
return the 201 detail view: the refreshed row has no country and
`MovieDetailSchema` requires one, so response validation fails after the
commit. -/
theorem C8_counterexample :
    (validatePayload 18500 rawNullCountry).isOk = true ∧
    exEmptyDB.movies.filter
      (fun m => m.name == "Dune" && m.date == 18500) = [] ∧
    (add_film_route 18500 exEmptyDB rawNullCountry false).1.movies.length = 1 ∧
    (add_film_route 18500 exEmptyDB rawNullCountry false).2 =
      .serverError "ResponseValidationError" :=
  ⟨by decide, by decide, by decide, by decide⟩

/-- C8, amended: a valid, non-duplicate create body whose country reference
resolves to a stored country and whose commit the storage layer accepts is
persisted as a new movie carrying exactly the supplied fields, is assigned
the storage layer's fresh identifier, and the response is 201 with the
detail view of the new record. -/
theorem C8_create_success (today : Int) (db : DB) (raw : RawPayload)
    (p : MovieCreateUpdateSchema) (c : Country)
    (hv : validatePayload today raw = .ok p)
    (hno : db.movies.filter (fun m => m.name == p.name && m.date == p.date) = [])
    (hc : lookupCountry db p.country_id = some c)
    (hfresh : ∀ m ∈ db.movies, m.id ≠ db.nextId) :
    (add_film_route today db raw false).1.movies = db.movies ++ [mkMovie db p] ∧
    (add_film_route today db raw false).1.nextId = db.nextId + 1 ∧
    (mkMovie db p).id = db.nextId ∧
    (∀ m ∈ db.movies, m.id ≠ (mkMovie db p).id) ∧
    (mkMovie db p).name = p.name ∧ (mkMovie db p).date = p.date ∧
    (mkMovie db p).score = p.score ∧ (mkMovie db p).overview = p.overview ∧
    (mkMovie db p).status = p.status ∧ (mkMovie db p).budget = p.budget ∧
    (mkMovie db p).revenue = p.revenue ∧
    (mkMovie db p).country_id = p.country_id ∧
    (∃ d, serializeDetail (add_film_route today db raw false).1 (mkMovie db p) =
            some d ∧
          (add_film_route today db raw false).2 = .ok 201 d) := by
  have hroute : add_film_route today db raw false =
      ({ db with movies := db.movies ++ [mkMovie db p], nextId := db.nextId + 1 },
       match serializeDetail
           { db with movies := db.movies ++ [mkMovie db p],
                     nextId := db.nextId + 1 } (mkMovie db p) with
       | none => .serverError "ResponseValidationError"
       | some d => .ok 201 d) := by
    unfold add_film_route
    rw [hv]
    dsimp only
    rw [hno]
    rfl
  have hc2 : lookupCountry
      { db with movies := db.movies ++ [mkMovie db p], nextId := db.nextId + 1 }
      (mkMovie db p).country_id = some c := hc
  obtain ⟨d, hd⟩ : ∃ d, serializeDetail
      { db with movies := db.movies ++ [mkMovie db p], nextId := db.nextId + 1 }
      (mkMovie db p) = some d := by
    unfold serializeDetail
    rw [hc2]
    exact ⟨_, rfl⟩
  rw [hroute]
  refine ⟨rfl, rfl, rfl, ?_, rfl, rfl, rfl, rfl, rfl, rfl, rfl, rfl,
          ⟨d, hd, ?_⟩⟩
  · exact hfresh
  · rw [hd]

/-- Witness for C8's amended claim: creating (Dune, 18500) in the empty
catalogue. -/
theorem C8_create_success_witness :
    (validatePayload 18500 rawFull = .ok pFull ∧
     exEmptyDB.movies.filter
       (fun m => m.name == pFull.name && m.date == pFull.date) = [] ∧
     lookupCountry exEmptyDB pFull.country_id = some countryUS ∧
     (∀ m ∈ exEmptyDB.movies, m.id ≠ exEmptyDB.nextId)) ∧
    ((add_film_route 18500 exEmptyDB rawFull false).1.movies =
       exEmptyDB.movies ++ [mkMovie exEmptyDB pFull] ∧
     (mkMovie exEmptyDB pFull).id = exEmptyDB.nextId ∧
     (∃ d, serializeDetail (add_film_route 18500 exEmptyDB rawFull false).1
             (mkMovie exEmptyDB pFull) = some d ∧
           (add_film_route 18500 exEmptyDB rawFull false).2 = .ok 201 d)) := by
  have h := C8_create_success 18500 exEmptyDB rawFull pFull countryUS (by rfl)
    (by decide) (by decide) (by decide)
  obtain ⟨h1, h2, h3, h4, h5, h6, h7, h8, h9, h10, h11, h12, h13⟩ := h
  exact ⟨⟨by rfl, by decide, by decide, by decide⟩, h1, h3, h13⟩

/-- C2: a storage-level uniqueness violation raised at commit time (after the
handler's own duplicate check passed) is not translated into a conflict:
`add_film` has no try/except around `db.commit()`, so the `IntegrityError`
escapes the handler as a raw storage error — not a 409 conflict and not any
handled domain error. -/
theorem C2_integrity_error_escapes :
    add_film_route 18500 exEmptyDB rawFull true =
      (exEmptyDB, .serverError "IntegrityError") ∧
    (add_film_route 18500 exEmptyDB rawFull true).2 ≠
      .httpError 409 "Movie with the same name and date already exists." ∧
    ∀ st detail, (add_film_route 18500 exEmptyDB rawFull true).2 ≠
      .httpError st detail := by
  refine ⟨by decide, by decide, ?_⟩
  intro st detail h
  rw [show (add_film_route 18500 exEmptyDB rawFull true).2 =
        .serverError "IntegrityError" from by decide] at h
  cases h

end MoviesApi
